import Mathlib

/-!
# Verification of the vikunja-mcp normalization / resilience core

Shallow embedding of the repository's sanitizer (`transformUser`), resilient
webhook-event reference cache (`getValidEvents`), reference-set validation
(`validateWebhookEvents`), error-classification boundaries, and the users tool
handler, together with theorems settling the specification claims.

JavaScript runtime values are modelled by `JSValue`.  Numbers are modelled as
rationals: every value reaching the sanitizer comes from `response.json()`,
and JSON numbers are finite decimals, so `ℚ` represents them exactly
(`NaN`/`Infinity` are not JSON-representable; `NaN` arises in the model only
as the result of a numeric coercion, represented by `JNum.nan`).
Objects are association lists with distinct keys (a JavaScript object has at
most one binding per key at runtime).
-/

/-- A JavaScript runtime value, as observed by the sanitizer. -/
inductive JSValue where
  | null
  | undefined
  | bool (b : Bool)
  | num (q : ℚ)
  | str (s : String)
  | obj (fields : List (String × JSValue))
  | arr (elems : List JSValue)

/-- Property access `o[k]`: the bound value, or `undefined` when the key is
absent (JavaScript yields `undefined` for missing properties). -/
def getField (fields : List (String × JSValue)) (k : String) : JSValue :=
  match fields.find? (fun kv => kv.1 == k) with
  | some kv => kv.2
  | none => .undefined

/-- JavaScript truthiness.  `null`/`undefined`, `false`, `0`, and `""` are
falsy; every object and array (including `{}` and `[]`) is truthy.  A `num`
is a finite JSON number, so "not NaN" needs no extra case. -/
def jsTruthy : JSValue → Bool
  | .null => false
  | .undefined => false
  | .bool b => b
  | .num q => q != 0
  | .str s => s != ""
  | .obj _ => true
  | .arr _ => true

/-- `typeof v === 'object'` (true for `null`, plain objects, and arrays). -/
def typeofIsObject : JSValue → Bool
  | .null => true
  | .obj _ => true
  | .arr _ => true
  | _ => false

/-- Result of JavaScript `Number(...)` coercion: a rational or `NaN`. -/
inductive JNum where
  | nan
  | val (q : ℚ)
deriving DecidableEq

/-- All characters are decimal digits (and the list is nonempty). -/
def digitsToNat : List Char → Option Nat
  | [] => none
  | cs =>
    cs.foldl
      (fun acc c =>
        match acc with
        | none => none
        | some n => if c.isDigit then some (n * 10 + (c.toNat - '0'.toNat)) else none)
      (some 0)

/-- JavaScript whitespace stripped by string-to-number coercion. -/
def isJsWhitespace (c : Char) : Bool :=
  c == ' ' || c == '\t' || c == '\n' || c == '\r'

/-- Strip leading and trailing whitespace. -/
def trimChars (cs : List Char) : List Char :=
  ((cs.dropWhile isJsWhitespace).reverse.dropWhile isJsWhitespace).reverse

/-- Split at the first `'.'`: the characters before it, and (when a dot is
present) the characters after it. -/
def splitAtDot : List Char → List Char × Option (List Char)
  | [] => ([], none)
  | c :: rest =>
    if c == '.' then ([], some rest)
    else
      let (a, b) := splitAtDot rest
      (c :: a, b)

/-- Unsigned decimal literal: `digits`, `digits.`, `digits.digits`, or
`.digits` (as accepted by JavaScript's string-to-number grammar), as a
numerator over a power-of-ten denominator. -/
def parseUnsignedDecimal (cs : List Char) : Option (Nat × Nat) :=
  match splitAtDot cs with
  | (intPart, none) => (digitsToNat intPart).map (fun n => (n, 1))
  | (intPart, some fracPart) =>
    if fracPart.contains '.' then none
    else if intPart.isEmpty && fracPart.isEmpty then none
    else
      let ip : Option Nat := if intPart.isEmpty then some 0 else digitsToNat intPart
      let fp : Option Nat := if fracPart.isEmpty then some 0 else digitsToNat fracPart
      match ip, fp with
      | some i, some f => some (i * 10 ^ fracPart.length + f, 10 ^ fracPart.length)
      | _, _ => none

/-- JavaScript `Number(string)`: trimmed empty string is `0`; otherwise an
optionally signed decimal literal, else `NaN`.  (Hex/exponent forms of the
full grammar are not modelled; no verified property depends on them.) -/
def parseNumericString (s : String) : JNum :=
  match trimChars s.toList with
  | [] => .val 0
  | '-' :: rest =>
    match parseUnsignedDecimal rest with
    | some (n, d) => .val (mkRat (-(n : Int)) d)
    | none => .nan
  | '+' :: rest =>
    match parseUnsignedDecimal rest with
    | some (n, d) => .val (mkRat n d)
    | none => .nan
  | t =>
    match parseUnsignedDecimal t with
    | some (n, d) => .val (mkRat n d)
    | none => .nan

/-- JavaScript `Number(value)` (ToNumber).  Plain objects convert via
`"[object Object]"` to `NaN`; an array converts via its joined string form,
modelled for the empty, singleton and multi-element cases. -/
def jsToNumber : JSValue → JNum
  | .null => .val 0
  | .undefined => .nan
  | .bool b => .val (if b then 1 else 0)
  | .num q => .val q
  | .str s => parseNumericString s
  | .obj _ => .nan
  | .arr [] => .val 0
  | .arr [.null] => .val 0
  | .arr [.undefined] => .val 0
  | .arr [.bool _] => .nan
  | .arr [e] => jsToNumber e
  | .arr _ => .nan

/-- `Number(x) || 0`: `NaN` and `0` are falsy, so both map to `0`. -/
def jsOr0 : JNum → ℚ
  | .nan => 0
  | .val q => if q = 0 then 0 else q

/-- JavaScript `String(q)` for a finite number.  Exact for integral values
(the only ones any verified property observes); non-integral values render
as `num/den`, a placeholder for JavaScript's decimal formatting. -/
def jsNumToString (q : ℚ) : String :=
  if q.den = 1 then toString q.num
  else toString q.num ++ "/" ++ toString q.den

mutual

/-- `JSON.stringify` on acyclic values (string escaping not modelled; no
verified property observes the serialized text).  Our values are finite
trees, so serialization cannot throw. -/
def jsonStringify : JSValue → String
  | .null => "null"
  | .undefined => "null"
  | .bool b => if b then "true" else "false"
  | .num q => jsNumToString q
  | .str s => "\"" ++ s ++ "\""
  | .obj fields => "\x7b" ++ String.intercalate "," (jsonFields fields) ++ "\x7d"
  | .arr elems => "[" ++ String.intercalate "," (jsonElems elems) ++ "]"

def jsonFields : List (String × JSValue) → List String
  | [] => []
  | (k, v) :: rest => ("\"" ++ k ++ "\":" ++ jsonStringify v) :: jsonFields rest

def jsonElems : List JSValue → List String
  | [] => []
  | v :: rest => jsonStringify v :: jsonElems rest

end

/-!
## Error taxonomy

The carrier type `MCPError` and the kind enumeration `ErrorCode` are defined
in `src/types`, which is not part of the provided sources; the closed kind
set below is the spec's taxonomy (§7), using the SCREAMING_CASE names the
sources import (`ErrorCode.AUTH_REQUIRED`, ...), plus `INVALID_PAYLOAD`
which only the spec names.
-/

/-- Modelled from the spec: the closed set of error kinds (§7); the
definition of `ErrorCode` in `src/types` is not among the provided sources. -/
inductive ErrorCode where
  | AUTH_REQUIRED
  | PERMISSION_DENIED
  | VALIDATION_ERROR
  | NOT_FOUND
  | API_ERROR
  | NOT_IMPLEMENTED
  | INTERNAL_ERROR
  | INVALID_PAYLOAD
deriving DecidableEq

/-- Modelled from the spec: the taxonomy-error carrier (`MCPError` in
`src/types`, not among the provided sources): kind, message, and an optional
context of scalar values (§3). -/
structure MCPError where
  code : ErrorCode
  message : String
  context : List (String × Int) := []
deriving DecidableEq

/-- A value caught by a `catch` block: an already-classified taxonomy error,
a plain `Error` (carrying its message), or a thrown non-`Error` value
(carrying its `String(...)` form). -/
inductive Caught where
  | mcp (e : MCPError)
  | err (message : String)
  | other (s : String)
deriving DecidableEq

/-- `error instanceof Error ? error.message : String(error)` (an `MCPError`
is an `Error`, so its message is used). -/
def caughtMessage : Caught → String
  | .mcp e => e.message
  | .err m => m
  | .other s => s

/-!
## Sanitizer (`transformUser`, src/unnamed/part_000 lines 32-75)
-/

/-- `isUserObject`: non-null, `typeof === 'object'`, not an array
(src/unnamed/part_000 lines 25-27).  Only `.obj` satisfies all three. -/
def isUserObject : JSValue → Bool
  | .obj _ => true
  | _ => false

/-- `safeString` (src/unnamed/part_000 lines 39-51): strings pass through;
numbers/booleans via `String(...)`; non-null objects via `JSON.stringify`
(which cannot throw on our acyclic values, so the `'[object Object]'`
fallback branch is unreachable); `null`/`undefined` fall through the final
conditional to `''`. -/
def safeString : JSValue → String
  | .str s => s
  | .num q => jsNumToString q
  | .bool b => if b then "true" else "false"
  | .obj fields => jsonStringify (.obj fields)
  | .arr elems => jsonStringify (.arr elems)
  | .null => ""
  | .undefined => ""

/-- The sanitized user record (`User`, the extended interface built by
`transformUser`).  Optional fields are omitted (`none`) rather than set to
null.  `transformUser` never writes `overdue_tasks_reminders_time`, but the
interface declares it, and the settings view reads it. -/
structure User where
  id : ℚ
  username : String
  frontend_settings : JSValue
  email : Option String := none
  name : Option String := none
  created : Option String := none
  updated : Option String := none
  language : Option String := none
  timezone : Option String := none
  week_start : Option JNum := none
  email_reminders_enabled : Option Bool := none
  overdue_tasks_reminders_enabled : Option Bool := none
  overdue_tasks_reminders_time : Option String := none

/-- Optional string field included by truthiness:
`...(user.f ? { f: safeString(user.f) } : {})`. -/
def truthyStringField (fields : List (String × JSValue)) (k : String) : Option String :=
  if jsTruthy (getField fields k) then some (safeString (getField fields k)) else none

/-- Optional boolean field included by presence:
`...(user.f !== undefined ? { f: Boolean(user.f) } : {})`. -/
def presentBoolField (fields : List (String × JSValue)) (k : String) : Option Bool :=
  match getField fields k with
  | .undefined => none
  | v => some (jsTruthy v)

/-- The object branch of `transformUser` (src/unnamed/part_000 lines 37-74):
`id: Number(user.id) || 0`; `username: safeString(user.username)`;
`frontend_settings` kept only when truthy and `typeof === 'object'`, else
`{}`; string fields spread by truthiness; `week_start` and the two boolean
fields spread by an explicit `!== undefined` test. -/
def sanitizeFields (user : List (String × JSValue)) : User :=
  { id := jsOr0 (jsToNumber (getField user "id"))
    username := safeString (getField user "username")
    frontend_settings :=
      if jsTruthy (getField user "frontend_settings")
          && typeofIsObject (getField user "frontend_settings") then
        getField user "frontend_settings"
      else .obj []
    email := truthyStringField user "email"
    name := truthyStringField user "name"
    created := truthyStringField user "created"
    updated := truthyStringField user "updated"
    language := truthyStringField user "language"
    timezone := truthyStringField user "timezone"
    week_start :=
      match getField user "week_start" with
      | .undefined => none
      | v => some (jsToNumber v)
    email_reminders_enabled := presentBoolField user "email_reminders_enabled"
    overdue_tasks_reminders_enabled := presentBoolField user "overdue_tasks_reminders_enabled"
    overdue_tasks_reminders_time := none }

/-- `transformUser` (src/unnamed/part_000 lines 32-75): a non-object input
throws `Error('Invalid user data received')`; an object input is sanitized
field-by-field and never fails. -/
def transformUser (rawUser : JSValue) : Except String User :=
  match rawUser with
  | .obj fields => .ok (sanitizeFields fields)
  | _ => .error "Invalid user data received"

/-- Modelled from the spec: the spec exposes the sanitizer as
`sanitize(raw) -> SanitizedRecord | fails(InvalidPayload)` (§4.1, §6); the
source throws a plain `Error`, and the taxonomy wrapper that would carry the
`InvalidPayload` kind lives in `src/types`, which is not among the provided
sources.  `sanitizeUser` carries `transformUser`'s failure as the spec's
`InvalidPayload` taxonomy error. -/
def sanitizeUser (rawUser : JSValue) : Except MCPError User :=
  match transformUser rawUser with
  | .ok u => .ok u
  | .error m => .error ⟨.INVALID_PAYLOAD, m, []⟩

/-!
## Resilient reference cache (`getValidEvents`, src/src/tools/webhooks.ts
lines 17-116)

The module-level mutable pair `cachedEvents` / `cacheExpiry` is modelled as
an explicit state record threaded through `getValidEvents`; timestamps are
integer milliseconds.  The upstream interaction of one invocation --
`authManager.getSession()` followed by `fetch(...)` and `response.json()` --
is summarized by a `FetchOutcome`: a parsed event list on success, the HTTP
status (and statusText) when `response.ok` is false, or a thrown error
(network failure, session-provider failure, or JSON parse failure, all of
which surface as exceptions inside the `try` block).
-/

/-- The module-level cache state (`cachedEvents`, `cacheExpiry`). -/
structure WebhookEventCache where
  cachedEvents : Option (List String)
  cacheExpiry : Option Int
deriving DecidableEq

/-- `CACHE_DURATION_MS = 5 * 60 * 1000` (5 minutes). -/
def CACHE_DURATION_MS : Int := 5 * 60 * 1000

/-- `clearWebhookEventCache` (lines 23-26): drop events and expiry. -/
def clearWebhookEventCache : WebhookEventCache :=
  ⟨none, none⟩

/-- `expireWebhookEventCache` (lines 29-31): set expiry to epoch 0, keep
events. -/
def expireWebhookEventCache (st : WebhookEventCache) : WebhookEventCache :=
  ⟨st.cachedEvents, some 0⟩

/-- The static default event list used on the fallback paths (lines 65-77
and 100-112). -/
def defaultWebhookEvents : List String :=
  [ "task.created", "task.updated", "task.deleted", "task.assigned",
    "task.comment.created", "project.created", "project.updated",
    "project.deleted", "project.shared", "team.created", "team.deleted" ]

/-- The observable outcome of one upstream fetch attempt. -/
inductive FetchOutcome where
  | ok (events : List String)
  | httpError (status : Nat) (statusText : String)
  | throws (message : String)
deriving DecidableEq

/-- The body of the `try` block of `getValidEvents` (lines 50-90): a thrown
error (from `getSession`, `fetch`, or `json`) propagates; a non-ok response
with status 401/403/404 installs the static default list with a fresh TTL;
any other non-ok status throws `Failed to fetch webhook events: ...`; an ok
response installs the parsed list with a fresh TTL. -/
def fetchFreshEvents (now : Int) (outcome : FetchOutcome) :
    Except String (List String × WebhookEventCache) :=
  match outcome with
  | .throws m => .error m
  | .httpError status statusText =>
    if status = 401 ∨ status = 403 ∨ status = 404 then
      .ok (defaultWebhookEvents,
        ⟨some defaultWebhookEvents, some (now + CACHE_DURATION_MS)⟩)
    else
      .error ("Failed to fetch webhook events: " ++ statusText)
  | .ok events =>
    .ok (events, ⟨some events, some (now + CACHE_DURATION_MS)⟩)

/-- The fetch attempt together with the `catch` block (lines 50-115): on any
thrown error, return the stale cached events unchanged when present,
otherwise install and return the static default list with a fresh TTL. -/
def getValidEventsFetch (st : WebhookEventCache) (now : Int)
    (outcome : FetchOutcome) : Except String (List String × WebhookEventCache) :=
  match fetchFreshEvents now outcome with
  | .ok r => .ok r
  | .error _ =>
    match st.cachedEvents with
    | some evs => .ok (evs, st)
    | none =>
      .ok (defaultWebhookEvents,
        ⟨some defaultWebhookEvents, some (now + CACHE_DURATION_MS)⟩)

/-- `getValidEvents` (lines 36-116): return the cached events when
`cachedEvents && cacheExpiry && cacheExpiry > now` (a non-null array and a
non-null `Date` are always truthy), else attempt a fetch with the three-tier
fallback.  Result: the returned event list and the updated module state. -/
def getValidEvents (st : WebhookEventCache) (now : Int) (outcome : FetchOutcome) :
    Except String (List String × WebhookEventCache) :=
  match st.cachedEvents, st.cacheExpiry with
  | some evs, some exp =>
    if exp > now then .ok (evs, st)
    else getValidEventsFetch st now outcome
  | _, _ => getValidEventsFetch st now outcome

/-- `validateWebhookEvents` (src/src/tools/webhooks.ts lines 119-129),
parameterized by the reference set that `getValidEvents` returned: candidates
missing from the reference set are collected; when any exist, fail with a
`VALIDATION_ERROR` listing them and the full valid set. -/
def validateWebhookEvents (validEvents : List String) (events : List String) :
    Except MCPError Unit :=
  let invalidEvents := events.filter (fun event => !validEvents.contains event)
  if invalidEvents.length > 0 then
    .error ⟨.VALIDATION_ERROR,
      "Invalid webhook events: " ++ String.intercalate ", " invalidEvents ++
        ". Valid events are: " ++ String.intercalate ", " validEvents, []⟩
  else
    .ok ()

/-!
## Error-classification boundaries
-/

/-- The `catch` block of the webhooks tool handler (src/src/tools/webhooks.ts
lines 517-531): an `MCPError` is re-thrown unchanged; an `Error` becomes
`API_ERROR` with a `Webhook operation failed:` prefix; anything else becomes
a fixed `INTERNAL_ERROR`. -/
def webhooksCatch (error : Caught) : MCPError :=
  match error with
  | .mcp e => e
  | .err m => ⟨.API_ERROR, "Webhook operation failed: " ++ m, []⟩
  | .other _ =>
    ⟨.INTERNAL_ERROR, "An unexpected error occurred during webhook operation", []⟩

/-- The `(id: ...)` fragment a wrapped message carries when an entity id is
available. -/
def idSuffix : Option Int → String
  | some i => " (id " ++ toString i ++ ")"
  | none => ""

/-- Modelled from the spec: `wrapToolError` lives in
`src/utils/error-handler`, which is not among the provided sources.  Spec
§4.2 (generic wrapper): an already-classified taxonomy error is re-thrown
unchanged (idempotent, never double-wraps); otherwise an `API_ERROR` (or
`INTERNAL_ERROR` when the failure carries no message) whose message embeds
the operation name, the entity id when present, and the original message. -/
def wrapToolError (error : Caught) (toolName operation : String)
    (id : Option Int) : MCPError :=
  match error with
  | .mcp e => e
  | .err m =>
    if m = "" then
      ⟨.INTERNAL_ERROR, toolName ++ ": " ++ operation ++ idSuffix id ++ " failed", []⟩
    else
      ⟨.API_ERROR,
        toolName ++ ": " ++ operation ++ idSuffix id ++ " failed: " ++ m, []⟩
  | .other s =>
    ⟨.INTERNAL_ERROR,
      toolName ++ ": " ++ operation ++ idSuffix id ++ " failed: " ++ s, []⟩

/-- Modelled from the spec: `handleStatusCodeError` (the spec's
`classifyStatus`) lives in `src/utils/error-handler`, which is not among the
provided sources (src/src/tools/teams.ts lines 172-180 only call it).  Spec
§4.2: 401 → `AuthRequired`, 403 → `PermissionDenied`, 404 → `NotFound`,
400/422 → `ValidationError`, everything else → `ApiError`; the caller's
context (e.g. entity id) is carried in the error's context. -/
def handleStatusCodeError (status : Nat) (message : String)
    (context : List (String × Int)) : MCPError :=
  if status = 401 then ⟨.AUTH_REQUIRED, message, context⟩
  else if status = 403 then ⟨.PERMISSION_DENIED, message, context⟩
  else if status = 404 then ⟨.NOT_FOUND, message, context⟩
  else if status = 400 ∨ status = 422 then ⟨.VALIDATION_ERROR, message, context⟩
  else ⟨.API_ERROR, message, context⟩

/-- Message pattern that identifies an expired or invalid session. -/
def mentionsExpiredSession (msg : String) : Bool :=
  (msg.splitOn "expired").length > 1 || (msg.splitOn "invalid token").length > 1

/-- Modelled from the spec: `handleAuthError` lives in
`src/utils/auth-error-handler`, which is not among the provided sources
(src/unnamed/part_000 line 309 only calls it).  Spec §4.2 (auth-specific
wrapper): a failure whose message matches an expired/invalid-session pattern
is reclassified `AuthRequired` with remediation guidance; otherwise the
generic wrapping applies with the caller's contextual message. -/
def handleAuthError (error : Caught) (operation fallbackMessage : String) :
    MCPError :=
  if mentionsExpiredSession (caughtMessage error) then
    ⟨.AUTH_REQUIRED,
      "Session expired or invalid during " ++ operation ++
        ". Please re-authenticate with vikunja_auth.connect.", []⟩
  else
    match error with
    | .mcp e => e
    | .err _ => ⟨.API_ERROR, fallbackMessage, []⟩
    | .other _ => ⟨.API_ERROR, fallbackMessage, []⟩

/-!
## Users tool handler (`registerUsersTool`, src/unnamed/part_000 lines
77-317)

The handler is modelled as a function of the session state, the external
API's behaviour for this invocation (`UsersApiEnv`), and the zod-validated
arguments; it returns the outcome (success payload or caught failure) and
the ordered list of API client calls made.
-/

/-- The `subcommand` enumeration of the users tool (zod-validated, so no
other value reaches the handler). -/
inductive UsersSubcommand where
  | current
  | search
  | settings
  | updateSettings
deriving DecidableEq

/-- The string form of a subcommand (used in `user.${args.subcommand}`). -/
def subcommandName : UsersSubcommand → String
  | .current => "current"
  | .search => "search"
  | .settings => "settings"
  | .updateSettings => "update-settings"

/-- The zod-validated arguments of the users tool (lines 81-101).  zod makes
every non-subcommand field optional; `none` is JavaScript `undefined`. -/
structure UsersArgs where
  subcommand : UsersSubcommand
  search : Option String := none
  page : Option Nat := none
  perPage : Option Nat := none
  name : Option String := none
  language : Option String := none
  timezone : Option String := none
  weekStart : Option Nat := none
  frontendSettings : Option (List (String × JSValue)) := none
  emailRemindersEnabled : Option Bool := none
  overdueTasksRemindersEnabled : Option Bool := none
  overdueTasksRemindersTime : Option String := none

/-- The search parameters built for `client.users.getUsers` (lines 148-151). -/
structure SearchParams where
  s : Option String := none
  page : Option Nat := none
  per_page : Option Nat := none
deriving DecidableEq

/-- The partial settings object forwarded to
`client.users.updateGeneralSettings` (lines 232-266). -/
structure SettingsPayload where
  name : Option String := none
  language : Option String := none
  timezone : Option String := none
  week_start : Option Nat := none
  frontend_settings : Option (List (String × JSValue)) := none
  email_reminders_enabled : Option Bool := none
  overdue_tasks_reminders_enabled : Option Bool := none
  overdue_tasks_reminders_time : Option String := none

/-- One API client call made by the handler, with its payload. -/
inductive UsersApiCall where
  | getUser
  | getUsers (params : SearchParams)
  | updateGeneralSettings (settings : SettingsPayload)

/-- The external behaviour of one invocation: what each API client method
returns (or throws) when called. -/
structure UsersApiEnv where
  getClient : Except Caught Unit
  getUser : Except Caught JSValue
  getUsers : Except Caught (List JSValue)
  updateGeneralSettings : Except Caught Unit

/-- The settings view assembled by the `settings` subcommand (lines
185-197): string fields spread by truthiness, `week_start` and the booleans
by `!== undefined`, `frontendSettings` defaulted with `|| {}`. -/
structure UserSettingsView where
  id : ℚ
  username : String
  email : Option String := none
  name : Option String := none
  language : Option String := none
  timezone : Option String := none
  weekStart : Option JNum := none
  frontendSettings : JSValue
  emailRemindersEnabled : Option Bool := none
  overdueTasksRemindersEnabled : Option Bool := none
  overdueTasksRemindersTime : Option String := none

/-- `opt && { k: opt }` for an optional string already in the record: kept
only when present and non-empty (truthiness of the string value). -/
def truthyStrOpt : Option String → Option String
  | some s => if s = "" then none else some s
  | none => none

/-- Build the settings view from a sanitized user (lines 185-197). -/
def buildSettingsView (user : User) : UserSettingsView :=
  { id := user.id
    username := user.username
    email := truthyStrOpt user.email
    name := truthyStrOpt user.name
    language := truthyStrOpt user.language
    timezone := truthyStrOpt user.timezone
    weekStart := user.week_start
    frontendSettings :=
      if jsTruthy user.frontend_settings then user.frontend_settings
      else .obj []
    emailRemindersEnabled := user.email_reminders_enabled
    overdueTasksRemindersEnabled := user.overdue_tasks_reminders_enabled
    overdueTasksRemindersTime := truthyStrOpt user.overdue_tasks_reminders_time }

/-- The success payload of the users tool (the `data` part of the response
envelope; the envelope builder and markdown renderer live in
`src/utils/response-factory`, outside the provided sources, and carry the
payload through unchanged). -/
inductive UsersData where
  | currentUser (user : User)
  | searchUsers (users : List User)
  | settingsView (settings : UserSettingsView)
  | updatedUser (user : User) (affectedFields : List String)

/-- `!args.f` for an optional string argument: true when the argument is
`undefined` or the empty string. -/
def strFalsy : Option String → Bool
  | none => true
  | some s => s == ""

/-- The `update-settings` emptiness check (lines 216-225): `name`,
`language`, `timezone` are tested by truthiness (`!args.f`), and
`frontendSettings` by `!args.frontendSettings` (an object, even `{}`, is
truthy, so this is a presence test); `weekStart`, both booleans, and
`overdueTasksRemindersTime` are tested by `=== undefined`. -/
def updateSettingsEmpty (args : UsersArgs) : Bool :=
  strFalsy args.name && strFalsy args.language && strFalsy args.timezone &&
    args.weekStart.isNone && args.frontendSettings.isNone &&
    args.emailRemindersEnabled.isNone &&
    args.overdueTasksRemindersEnabled.isNone &&
    args.overdueTasksRemindersTime.isNone

/-- The settings payload and affected-field list built by `update-settings`
(lines 232-266); every field is included by an explicit `!== undefined`
test, in source order. -/
def buildSettingsPayload (args : UsersArgs) : SettingsPayload × List String :=
  let settings : SettingsPayload :=
    { name := args.name
      language := args.language
      timezone := args.timezone
      week_start := args.weekStart
      frontend_settings := args.frontendSettings
      email_reminders_enabled := args.emailRemindersEnabled
      overdue_tasks_reminders_enabled := args.overdueTasksRemindersEnabled
      overdue_tasks_reminders_time := args.overdueTasksRemindersTime }
  let affectedFields :=
    (if args.name.isSome then ["name"] else []) ++
    (if args.language.isSome then ["language"] else []) ++
    (if args.timezone.isSome then ["timezone"] else []) ++
    (if args.weekStart.isSome then ["weekStart"] else []) ++
    (if args.frontendSettings.isSome then ["frontendSettings"] else []) ++
    (if args.emailRemindersEnabled.isSome then ["emailRemindersEnabled"] else []) ++
    (if args.overdueTasksRemindersEnabled.isSome then ["overdueTasksRemindersEnabled"] else []) ++
    (if args.overdueTasksRemindersTime.isSome then ["overdueTasksRemindersTime"] else [])
  (settings, affectedFields)

/-- The `switch (subcommand)` body inside the `try` block (lines 120-302):
the result of the attempted operation and the ordered API calls made. -/
def usersSwitch (env : UsersApiEnv) (args : UsersArgs) :
    Except Caught UsersData × List UsersApiCall :=
  match args.subcommand with
  | .current =>
    match env.getUser with
    | .error e => (.error e, [.getUser])
    | .ok raw =>
      match transformUser raw with
      | .error m => (.error (.err m), [.getUser])
      | .ok u => (.ok (.currentUser u), [.getUser])
  | .search =>
    let params : SearchParams :=
      { s := args.search, page := args.page, per_page := args.perPage }
    match env.getUsers with
    | .error e => (.error e, [.getUsers params])
    | .ok raws =>
      match raws.mapM transformUser with
      | .error m => (.error (.err m), [.getUsers params])
      | .ok us => (.ok (.searchUsers us), [.getUsers params])
  | .settings =>
    match env.getUser with
    | .error e => (.error e, [.getUser])
    | .ok raw =>
      match transformUser raw with
      | .error m => (.error (.err m), [.getUser])
      | .ok u => (.ok (.settingsView (buildSettingsView u)), [.getUser])
  | .updateSettings =>
    if updateSettingsEmpty args then
      (.error (.mcp ⟨.VALIDATION_ERROR, "At least one setting field is required", []⟩), [])
    else
      let (settings, affectedFields) := buildSettingsPayload args
      match env.updateGeneralSettings with
      | .error e => (.error e, [.updateGeneralSettings settings])
      | .ok _ =>
        match env.getUser with
        | .error e => (.error e, [.updateGeneralSettings settings, .getUser])
        | .ok raw =>
          match transformUser raw with
          | .error m =>
            (.error (.err m), [.updateGeneralSettings settings, .getUser])
          | .ok u =>
            (.ok (.updatedUser u affectedFields),
              [.updateGeneralSettings settings, .getUser])

/-- The `catch` block of the users tool handler (lines 303-314): an
`MCPError` is re-thrown unchanged; anything else goes through
`handleAuthError` with operation `user.${args.subcommand}` and a
`User operation error: ...` contextual message. -/
def usersCatch (error : Caught) (sub : UsersSubcommand) : MCPError :=
  match error with
  | .mcp e => e
  | _ =>
    handleAuthError error ("user." ++ subcommandName sub)
      ("User operation error: " ++ caughtMessage error)

/-- The users tool handler (lines 102-315): the authentication check and the
JWT auth-type check run before `getClientFromContext` and before the `try`
block, so a failure there makes no API call; errors escaping the `try` block
are normalized by the `catch` block. -/
def usersHandler (isAuthenticated : Bool) (authType : String)
    (env : UsersApiEnv) (args : UsersArgs) :
    Except Caught UsersData × List UsersApiCall :=
  if !isAuthenticated then
    (.error (.mcp ⟨.AUTH_REQUIRED,
      "Authentication required. Please use vikunja_auth.connect first.", []⟩), [])
  else if authType ≠ "jwt" then
    (.error (.mcp ⟨.PERMISSION_DENIED,
      "User operations require JWT authentication. Please reconnect using vikunja_auth.connect with JWT authentication.", []⟩), [])
  else
    match env.getClient with
    | .error e => (.error e, [])
    | .ok _ =>
      match usersSwitch env args with
      | (.ok d, calls) => (.ok d, calls)
      | (.error e, calls) => (.error (.mcp (usersCatch e args.subcommand)), calls)

/-!
## Concrete fixtures for witnesses and counterexamples
-/

/-- A raw upstream user payload used by concrete scenarios. -/
def rawUserFixture : JSValue := .obj [("id", .num 1), ("username", .str "u")]

/-- The sanitized form of `rawUserFixture`. -/
def userFixture : User := { id := 1, username := "u", frontend_settings := .obj [] }

/-- An API environment where every call succeeds. -/
def usersEnvOK : UsersApiEnv :=
  { getClient := .ok ()
    getUser := .ok rawUserFixture
    getUsers := .ok []
    updateGeneralSettings := .ok () }

/-- `update-settings` arguments with no field supplied. -/
def updArgsBase : UsersArgs := { subcommand := .updateSettings }

/-!
## Claims
-/

/-- C1 counterexample: the source id `3.5` (a JSON-representable number) is
numeric and truthy, so `Number(user.id) || 0` passes it through unchanged;
the sanitized `id` is `7/2`, whose denominator is `2`, i.e. not an integer.
This refutes "the resulting record's id field is always an integer". -/
theorem sanitize_id_not_integer_cex :
    transformUser (.obj [("id", .num (mkRat 7 2))]) =
      .ok (sanitizeFields [("id", .num (mkRat 7 2))]) ∧
    (sanitizeFields [("id", .num (mkRat 7 2))]).id = mkRat 7 2 ∧
    (mkRat 7 2).den = 2 :=
  ⟨rfl, rfl, by decide⟩

/-- C1 (amended): for every non-null, non-array object input, sanitize
(`transformUser`) succeeds; the resulting `id` is the numeric coercion of
the source id with `0` for an absent or non-numeric (`NaN`-coercing) source
id — an integer whenever the source id is absent, non-numeric, or an
integral number, though a non-integral numeric source id passes through.
For every non-object input, sanitize fails with a taxonomy error of kind
`InvalidPayload`. -/
theorem sanitizer_totality (v : JSValue) :
    (∀ fields, v = JSValue.obj fields →
      transformUser v = .ok (sanitizeFields fields) ∧
      (sanitizeFields fields).id = jsOr0 (jsToNumber (getField fields "id")) ∧
      (getField fields "id" = .undefined → (sanitizeFields fields).id = 0) ∧
      (jsToNumber (getField fields "id") = .nan → (sanitizeFields fields).id = 0) ∧
      (∀ n : Int, jsToNumber (getField fields "id") = .val (n : ℚ) →
        ((sanitizeFields fields).id).den = 1)) ∧
    (isUserObject v = false →
      sanitizeUser v = .error ⟨.INVALID_PAYLOAD, "Invalid user data received", []⟩) := by
  constructor
  · rintro fields rfl
    refine ⟨rfl, rfl, ?_, ?_, ?_⟩
    · intro h
      simp [sanitizeFields, h, jsToNumber, jsOr0]
    · intro h
      simp [sanitizeFields, h, jsOr0]
    · intro n h
      simp only [sanitizeFields, h, jsOr0]
      split_ifs with h0
      · simp
      · exact Rat.den_intCast n
  · intro h
    cases v <;> first
      | rfl
      | (exfalso; simp [isUserObject] at h)

/-- C1 witness: a concrete object with a non-numeric id sanitizes to a
record with `id = 0`, and a concrete non-object (`null`) fails with
`InvalidPayload`. -/
theorem sanitizer_totality_witness :
    transformUser (.obj [("id", .str "x")]) = .ok (sanitizeFields [("id", .str "x")]) ∧
    (sanitizeFields [("id", .str "x")]).id = 0 ∧
    sanitizeUser .null = .error ⟨.INVALID_PAYLOAD, "Invalid user data received", []⟩ := by
  have h := sanitizer_totality (.obj [("id", .str "x")])
  have h2 := sanitizer_totality .null
  have hobj := h.1 [("id", .str "x")] rfl
  exact ⟨hobj.1, hobj.2.2.2.1 (by decide), h2.2 (by decide)⟩

/-- When the cache is not fresh (no entry, or expiry ≤ now), a read goes
through the fetch-with-fallback path. -/
theorem getValidEvents_not_fresh (st : WebhookEventCache) (now : Int)
    (outcome : FetchOutcome)
    (h : ∀ evs exp, st.cachedEvents = some evs → st.cacheExpiry = some exp →
      exp ≤ now) :
    getValidEvents st now outcome = getValidEventsFetch st now outcome := by
  obtain ⟨ce, cx⟩ := st
  cases ce with
  | none => cases cx <;> rfl
  | some evs =>
    cases cx with
    | none => rfl
    | some exp =>
      have hle := h evs exp rfl rfl
      simp [getValidEvents, not_lt.mpr hle]

/-- C2 counterexample: with an empty cache and an upstream fetch that
succeeds with the empty JSON array `[]`, `getValidEvents` caches and returns
the empty list — refuting "returns a non-empty list of event strings"
(no exception is raised, but the list is empty). -/
theorem cache_empty_list_cex :
    getValidEvents ⟨none, none⟩ 0 (.ok []) = .ok ([], ⟨some [], some 300000⟩) :=
  rfl

/-- C2 (amended): for every cache state (Empty, Stale, Fresh) and every
upstream fetch outcome (success, HTTP error status, thrown network error,
session-provider failure), `getValidEvents` returns a list of event strings
and does not propagate any exception — the `catch` block converts every
thrown error into the stale-cache or static-default result.  The returned
list can be empty only when the empty list was successfully fetched or is
already the cached value: every other path returns the non-empty cached or
static-default list. -/
theorem cache_never_raises (st : WebhookEventCache) (now : Int)
    (outcome : FetchOutcome) :
    ∃ evs st2, getValidEvents st now outcome = .ok (evs, st2) ∧
      (evs = [] → outcome = .ok [] ∨ st.cachedEvents = some []) := by
  have hdef : defaultWebhookEvents ≠ [] := by decide
  have hf : ∃ evs st2, getValidEventsFetch st now outcome = .ok (evs, st2) ∧
      (evs = [] → outcome = .ok [] ∨ st.cachedEvents = some []) := by
    unfold getValidEventsFetch
    cases outcome with
    | ok events =>
      exact ⟨events, _, rfl, fun he => Or.inl (by rw [he])⟩
    | throws m =>
      cases h : st.cachedEvents with
      | some cevs => exact ⟨cevs, st, rfl, fun he => Or.inr (by rw [he])⟩
      | none => exact ⟨defaultWebhookEvents, _, rfl, fun he => absurd he hdef⟩
    | httpError s t =>
      by_cases hs : s = 401 ∨ s = 403 ∨ s = 404
      · have hok : fetchFreshEvents now (.httpError s t) =
            .ok (defaultWebhookEvents,
              ⟨some defaultWebhookEvents, some (now + CACHE_DURATION_MS)⟩) := by
          simp [fetchFreshEvents, hs]
        rw [hok]
        exact ⟨defaultWebhookEvents, _, rfl, fun he => absurd he hdef⟩
      · have herr : fetchFreshEvents now (.httpError s t) =
            .error ("Failed to fetch webhook events: " ++ t) := by
          simp [fetchFreshEvents, hs]
        rw [herr]
        cases h : st.cachedEvents with
        | some cevs => exact ⟨cevs, st, rfl, fun he => Or.inr (by rw [he])⟩
        | none => exact ⟨defaultWebhookEvents, _, rfl, fun he => absurd he hdef⟩
  obtain ⟨ce, cx⟩ := st
  cases ce with
  | none => cases cx <;> exact hf
  | some cevs =>
    cases cx with
    | none => exact hf
    | some exp =>
      by_cases hgt : exp > now
      · exact ⟨cevs, ⟨some cevs, some exp⟩, by simp [getValidEvents, hgt],
          fun he => Or.inr (by rw [he])⟩
      · have heq : getValidEvents ⟨some cevs, some exp⟩ now outcome =
            getValidEventsFetch ⟨some cevs, some exp⟩ now outcome := by
          simp [getValidEvents, hgt]
        rw [heq]
        exact hf

/-- C2 witness: a concrete application of `cache_never_raises` — on an empty
cache with a thrown network error, the call returns `.ok` with a list that
is permitted to be empty only via the (here impossible) fetched-empty or
cached-empty cases; the returned list is in fact the static default. -/
theorem cache_never_raises_witness :
    ∃ evs st2,
      getValidEvents ⟨none, none⟩ 0 (.throws "network error") = .ok (evs, st2) ∧
      (evs = [] → FetchOutcome.throws "network error" = .ok [] ∨
        (none : Option (List String)) = some []) :=
  cache_never_raises ⟨none, none⟩ 0 (.throws "network error")

/-- C3: with a stale cache entry (expiry ≤ now) and a fetch that fails with
anything other than the 401/403/404 "not available" signal (a thrown error,
or any other HTTP error status), `getValidEvents` returns exactly the
previously cached values and leaves the cache state — values and expiry —
unchanged. -/
theorem stale_fallback (evs : List String) (exp now : Int)
    (outcome : FetchOutcome) (hstale : exp ≤ now)
    (houtcome : (∃ m, outcome = .throws m) ∨
      (∃ s t, outcome = .httpError s t ∧ s ≠ 401 ∧ s ≠ 403 ∧ s ≠ 404)) :
    getValidEvents ⟨some evs, some exp⟩ now outcome =
      .ok (evs, ⟨some evs, some exp⟩) := by
  rw [getValidEvents_not_fresh ⟨some evs, some exp⟩ now outcome
    (fun evs' exp' h1 h2 => by cases h2; exact hstale)]
  unfold getValidEventsFetch
  rcases houtcome with ⟨m, rfl⟩ | ⟨s, t, rfl, h1, h2, h3⟩
  · rfl
  · simp [fetchFreshEvents, h1, h2, h3]

/-- C3 witness: the spec's stale-fallback scenario — cache seeded with
`["task.created"]`, expiry forced to the past, next fetch throws a network
error; the cached values are returned and the state is untouched. -/
theorem stale_fallback_witness :
    getValidEvents ⟨some ["task.created"], some 0⟩ 5 (.throws "network error") =
      .ok (["task.created"], ⟨some ["task.created"], some 0⟩) :=
  stale_fallback ["task.created"] 0 5 (.throws "network error") (by decide)
    (Or.inl ⟨"network error", rfl⟩)

/-- C4: whenever a fetch actually happens (the cache is not fresh, i.e. the
state is Empty or Stale) and the upstream responds 401, 403 or 404, and
also whenever the fetch throws while no cache entry exists, `getValidEvents`
stores and returns the fixed static default event list — which has exactly
11 items — with a fresh expiry of `now + CACHE_DURATION_MS` (5 minutes). -/
theorem notavailable_default (st : WebhookEventCache) (now : Int)
    (hnotfresh : ∀ evs exp, st.cachedEvents = some evs →
      st.cacheExpiry = some exp → exp ≤ now) :
    (∀ s t, s = 401 ∨ s = 403 ∨ s = 404 →
      getValidEvents st now (.httpError s t) =
        .ok (defaultWebhookEvents,
          ⟨some defaultWebhookEvents, some (now + CACHE_DURATION_MS)⟩)) ∧
    (∀ m, st.cachedEvents = none →
      getValidEvents st now (.throws m) =
        .ok (defaultWebhookEvents,
          ⟨some defaultWebhookEvents, some (now + CACHE_DURATION_MS)⟩)) ∧
    defaultWebhookEvents.length = 11 := by
  refine ⟨?_, ?_, by decide⟩
  · intro s t hs
    rw [getValidEvents_not_fresh st now _ hnotfresh]
    unfold getValidEventsFetch
    simp [fetchFreshEvents, hs]
  · intro m hce
    rw [getValidEvents_not_fresh st now _ hnotfresh]
    unfold getValidEventsFetch
    simp [fetchFreshEvents, hce]

/-- C4 witness: on an empty cache, a 404 response and a thrown network error
both install and return the static default list with expiry `0 + 300000`. -/
theorem notavailable_default_witness :
    getValidEvents ⟨none, none⟩ 0 (.httpError 404 "Not Found") =
      .ok (defaultWebhookEvents, ⟨some defaultWebhookEvents, some 300000⟩) ∧
    getValidEvents ⟨none, none⟩ 0 (.throws "network error") =
      .ok (defaultWebhookEvents, ⟨some defaultWebhookEvents, some 300000⟩) := by
  have h := notavailable_default ⟨none, none⟩ 0 (fun evs exp h1 _ => by cases h1)
  have e : (0 : Int) + CACHE_DURATION_MS = 300000 := by decide
  constructor
  · have hc := h.1 404 "Not Found" (by simp)
    rwa [e] at hc
  · have hc := h.2.1 "network error" rfl
    rwa [e] at hc

/-- C5: the status classifier maps 401 → `AuthRequired`, 403 →
`PermissionDenied`, 404 → `NotFound`, 400/422 → `ValidationError`, and every
other status → `ApiError`, carrying the caller-supplied message and context;
in particular `classifyStatus(403, "forbidden", {entityId: 7})` yields kind
`PermissionDenied` with `entityId: 7` present in the error context. -/
theorem classify_status (status : Nat) (message : String)
    (context : List (String × Int)) :
    (status = 401 →
      handleStatusCodeError status message context = ⟨.AUTH_REQUIRED, message, context⟩) ∧
    (status = 403 →
      handleStatusCodeError status message context = ⟨.PERMISSION_DENIED, message, context⟩) ∧
    (status = 404 →
      handleStatusCodeError status message context = ⟨.NOT_FOUND, message, context⟩) ∧
    (status = 400 ∨ status = 422 →
      handleStatusCodeError status message context = ⟨.VALIDATION_ERROR, message, context⟩) ∧
    (status ∉ ([400, 401, 403, 404, 422] : List Nat) →
      handleStatusCodeError status message context = ⟨.API_ERROR, message, context⟩) ∧
    (handleStatusCodeError 403 "forbidden" [("entityId", 7)] =
      ⟨.PERMISSION_DENIED, "forbidden", [("entityId", 7)]⟩ ∧
    ("entityId", (7 : Int)) ∈ (handleStatusCodeError 403 "forbidden" [("entityId", 7)]).context) := by
  refine ⟨?_, ?_, ?_, ?_, ?_, rfl, by decide⟩
  · rintro rfl; rfl
  · rintro rfl; rfl
  · rintro rfl; rfl
  · rintro (rfl | rfl) <;> rfl
  · intro h
    simp only [List.mem_cons, List.not_mem_nil, or_false, not_or] at h
    obtain ⟨h400, h401, h403, h404, h422⟩ := h
    simp [handleStatusCodeError, h400, h401, h403, h404, h422]

/-- C5 witness: concrete classifications at statuses 401 (auth) and 500
(generic API error). -/
theorem classify_status_witness :
    handleStatusCodeError 401 "unauthorized" [] = ⟨.AUTH_REQUIRED, "unauthorized", []⟩ ∧
    handleStatusCodeError 500 "boom" [] = ⟨.API_ERROR, "boom", []⟩ := by
  exact ⟨(classify_status 401 "unauthorized" []).1 rfl,
    (classify_status 500 "boom" []).2.2.2.2.1 (by decide)⟩

/-- C6: when at least one candidate event is missing from the reference set,
`validateWebhookEvents` fails with a `VALIDATION_ERROR` whose message lists
exactly the invalid candidates (in order) and the full valid reference set;
when every candidate is in the reference set, it succeeds. -/
theorem reference_set_validation (validEvents events : List String) :
    ((∃ e ∈ events, e ∉ validEvents) →
      validateWebhookEvents validEvents events =
        .error ⟨.VALIDATION_ERROR,
          "Invalid webhook events: " ++
            String.intercalate ", "
              (events.filter (fun event => !validEvents.contains event)) ++
            ". Valid events are: " ++ String.intercalate ", " validEvents, []⟩) ∧
    ((∀ e ∈ events, e ∈ validEvents) →
      validateWebhookEvents validEvents events = .ok ()) := by
  constructor
  · intro hx
    simp [validateWebhookEvents]
    exact hx
  · intro hall
    simp [validateWebhookEvents]
    exact hall

/-- C6 witness: the spec scenario — reference set `["a","b"]`, candidates
`["a","c"]`: fails listing `c` as invalid and `a, b` as valid; and
candidates `["a","b"]` succeed. -/
theorem reference_set_validation_witness :
    validateWebhookEvents ["a", "b"] ["a", "c"] =
      .error ⟨.VALIDATION_ERROR,
        "Invalid webhook events: c. Valid events are: a, b", []⟩ ∧
    validateWebhookEvents ["a", "b"] ["a", "b"] = .ok () := by
  have h1 := (reference_set_validation ["a", "b"] ["a", "c"]).1
    ⟨"c", by decide, by decide⟩
  have h2 := (reference_set_validation ["a", "b"] ["a", "b"]).2 (by decide)
  exact ⟨h1.trans rfl, h2⟩

/-- C7: error classification is idempotent at every boundary in the sources:
the webhooks catch block, the users catch block, and the generic
`wrapToolError` wrapper all pass an already-classified `MCPError` through
with the same kind and the same message, and wrapping a wrapped result a
second time changes nothing. -/
theorem classification_idempotent :
    (∀ e : MCPError, webhooksCatch (.mcp e) = e) ∧
    (∀ (e : MCPError) (sub : UsersSubcommand), usersCatch (.mcp e) sub = e) ∧
    (∀ (e : MCPError) (tool op : String) (id : Option Int),
      wrapToolError (.mcp e) tool op id = e) ∧
    (∀ (c : Caught) (tool op tool2 op2 : String) (id id2 : Option Int),
      wrapToolError (.mcp (wrapToolError c tool op id)) tool2 op2 id2 =
        wrapToolError c tool op id) :=
  ⟨fun _ => rfl, fun _ _ => rfl, fun _ _ _ _ => rfl, fun _ _ _ _ _ _ _ => rfl⟩

/-- C8: the sanitizer preserves falsy-but-present boolean values — from
`{id: 5, username: "a", email_reminders_enabled: false}` the record keeps
`email_reminders_enabled = false` (neither omitted nor coerced to true) —
and, in general, the boolean and numeric optional fields (`week_start`,
`email_reminders_enabled`, `overdue_tasks_reminders_enabled`) are present in
the output exactly when the source value is not `undefined`. -/
theorem sanitize_preserves_false_boolean :
    transformUser (.obj [("id", .num 5), ("username", .str "a"),
        ("email_reminders_enabled", .bool false)]) =
      .ok { id := 5, username := "a", frontend_settings := .obj [],
            email_reminders_enabled := some false } ∧
    ∀ fields : List (String × JSValue),
      ((sanitizeFields fields).week_start = none ↔
        getField fields "week_start" = .undefined) ∧
      ((sanitizeFields fields).email_reminders_enabled = none ↔
        getField fields "email_reminders_enabled" = .undefined) ∧
      ((sanitizeFields fields).overdue_tasks_reminders_enabled = none ↔
        getField fields "overdue_tasks_reminders_enabled" = .undefined) := by
  refine ⟨rfl, fun fields => ⟨?_, ?_, ?_⟩⟩
  · cases h : getField fields "week_start" <;> simp [sanitizeFields, h]
  · cases h : getField fields "email_reminders_enabled" <;>
      simp [sanitizeFields, presentBoolField, h]
  · cases h : getField fields "overdue_tasks_reminders_enabled" <;>
      simp [sanitizeFields, presentBoolField, h]

/-- C9: when the session is authenticated but the auth type is not `jwt`,
the users tool fails with a `PERMISSION_DENIED` taxonomy error before
`getClientFromContext` and before any API client call (the call trace is
empty), for every subcommand and every API behaviour. -/
theorem users_jwt_precondition (authType : String) (env : UsersApiEnv)
    (args : UsersArgs) (h : authType ≠ "jwt") :
    usersHandler true authType env args =
      (.error (.mcp ⟨.PERMISSION_DENIED,
        "User operations require JWT authentication. Please reconnect using vikunja_auth.connect with JWT authentication.", []⟩), []) := by
  simp [usersHandler, h]

/-- C9 witness: with an `api-token` session, a concrete `current` invocation
is rejected with `PERMISSION_DENIED` and makes no API call. -/
theorem users_jwt_precondition_witness :
    usersHandler true "api-token" usersEnvOK { subcommand := .current } =
      (.error (.mcp ⟨.PERMISSION_DENIED,
        "User operations require JWT authentication. Please reconnect using vikunja_auth.connect with JWT authentication.", []⟩), []) :=
  users_jwt_precondition "api-token" usersEnvOK { subcommand := .current }
    (by decide)

/-- C10 counterexample: `overdueTasksRemindersTime` is a string field, yet
supplying it as the empty string (and nothing else) is accepted and
forwarded — the emptiness check tests it with `=== undefined`, not
truthiness — refuting the claim's "string/object fields are gated by
truthiness in the emptiness check". -/
theorem update_settings_truthiness_cex :
    usersHandler true "jwt" usersEnvOK
        { updArgsBase with overdueTasksRemindersTime := some "" } =
      (.ok (.updatedUser userFixture ["overdueTasksRemindersTime"]),
        [.updateGeneralSettings { overdue_tasks_reminders_time := some "" },
          .getUser]) :=
  rfl

/-- C10 (amended): an `update-settings` invocation whose only supplied field
is the empty string for `name`, `language`, or `timezone` fails with
`ValidationError` "At least one setting field is required" even though a
field was explicitly provided, whereas supplying only `weekStart = 0`, only
`emailRemindersEnabled = false`, or only `overdueTasksRemindersTime = ""` is
accepted and forwarded: `name`, `language`, `timezone` (and
`frontendSettings`) are gated by truthiness in the emptiness check, while
`weekStart`, the boolean fields, and `overdueTasksRemindersTime` are gated
by an explicit `undefined` test. -/
theorem update_settings_presence_vs_truthiness :
    usersHandler true "jwt" usersEnvOK { updArgsBase with name := some "" } =
      (.error (.mcp ⟨.VALIDATION_ERROR,
        "At least one setting field is required", []⟩), []) ∧
    usersHandler true "jwt" usersEnvOK { updArgsBase with language := some "" } =
      (.error (.mcp ⟨.VALIDATION_ERROR,
        "At least one setting field is required", []⟩), []) ∧
    usersHandler true "jwt" usersEnvOK { updArgsBase with timezone := some "" } =
      (.error (.mcp ⟨.VALIDATION_ERROR,
        "At least one setting field is required", []⟩), []) ∧
    usersHandler true "jwt" usersEnvOK { updArgsBase with weekStart := some 0 } =
      (.ok (.updatedUser userFixture ["weekStart"]),
        [.updateGeneralSettings { week_start := some 0 }, .getUser]) ∧
    usersHandler true "jwt" usersEnvOK
        { updArgsBase with emailRemindersEnabled := some false } =
      (.ok (.updatedUser userFixture ["emailRemindersEnabled"]),
        [.updateGeneralSettings { email_reminders_enabled := some false },
          .getUser]) :=
  ⟨rfl, rfl, rfl, rfl, rfl⟩
